import Mathlib

/-!
Verification development for the llama-mcp-server core: a shallow embedding
of the HTTP client (`src/client.ts`) and the process lifecycle tools
(`src/tools/process.ts`), with theorems settling the specification's claims
about them.

Modelling conventions:
* JavaScript numbers that the code merely passes through or defaults with
  `??` are modelled as `ℚ` (no arithmetic is performed on them).
* A fetch `Response` is modelled as a record carrying the HTTP status, the
  status text, the outcome of `response.json()` (`none` when the body is
  empty or not valid JSON, in which case `response.json()` rejects) and the
  outcome of `response.text()`.
* Each client method is split into the request it issues (a list of
  transport requests, so that "exactly one transport call" is statable) and
  the handling of the response.
* The asynchronous effects of the process tools (spawn, kill, the health
  oracle) are supplied by explicit environment records, and the operations
  return the events they performed.
-/

/-- A JSON value, the result of deserializing a response body. -/
inductive JsonVal where
  | null : JsonVal
  | bool (b : Bool) : JsonVal
  | num (q : ℚ) : JsonVal
  | str (s : String) : JsonVal
  | arr (elems : List JsonVal) : JsonVal
  | obj (fields : List (String × JsonVal)) : JsonVal

/-- Substring containment, at the level of the underlying character list:
`sub` occurs contiguously inside `s`. -/
def strContains (s sub : String) : Prop :=
  sub.data <:+: s.data

/-- String append is associative (via the underlying character lists). -/
theorem strAppend_assoc (a b c : String) : a ++ b ++ c = a ++ (b ++ c) := by
  apply String.ext
  simp [String.data_append, List.append_assoc]

/-- A fetch response as observed by `fetchJson` / `fetchText`:
`status`/`statusText` from the wire, `jsonBody` the outcome of
`response.json()` (`none` when the body is empty or not valid JSON, in
which case `response.json()` rejects), `textBody` the outcome of
`response.text()`. -/
structure HttpResponse where
  status : Nat
  statusText : String
  jsonBody : Option JsonVal
  textBody : String

/-- `response.ok` of the fetch API: status in the 2xx range. -/
def respOk (r : HttpResponse) : Bool :=
  decide (200 ≤ r.status) && decide (r.status < 300)

/-- `fetchJson` of `src/client.ts` (response phase): a non-2xx status
throws `HTTP ${status}: ${statusText}`; otherwise the body is deserialized
by `response.json()`, which rejects when the body is not valid JSON. -/
def fetchJson (r : HttpResponse) : Except String JsonVal :=
  if respOk r then
    match r.jsonBody with
    | some v => Except.ok v
    | none => Except.error "SyntaxError: Unexpected end of JSON input"
  else
    Except.error ("HTTP " ++ toString r.status ++ ": " ++ r.statusText)

/-- `fetchText` of `src/client.ts` (response phase): a non-2xx status
throws `HTTP ${status}: ${statusText}`; otherwise the raw text body is
returned. -/
def fetchText (r : HttpResponse) : Except String String :=
  if respOk r then Except.ok r.textBody
  else Except.error ("HTTP " ++ toString r.status ++ ": " ++ r.statusText)

/-- `CompletionOptions` of `src/types.ts`: every field optional. -/
structure CompletionOptions where
  max_tokens : Option ℚ
  temperature : Option ℚ
  top_p : Option ℚ
  top_k : Option ℚ
  stop : Option (List String)
  seed : Option ℚ
deriving DecidableEq

/-- A chat message (`role` is one of system/user/assistant, kept as a
string). -/
structure ChatMessage where
  role : String
  content : String
deriving DecidableEq

/-- `ChatOptions` of `src/types.ts`. -/
structure ChatOptions where
  max_tokens : Option ℚ
  temperature : Option ℚ
  top_p : Option ℚ
  stop : Option (List String)
  seed : Option ℚ
deriving DecidableEq

/-- `InfillOptions` of `src/types.ts`. -/
structure InfillOptions where
  max_tokens : Option ℚ
  temperature : Option ℚ
  stop : Option (List String)
deriving DecidableEq

/-- The serialized `/completion` request body built by `complete`
(`src/client.ts` lines 171-183). `stop`/`seed` being `none` models the
field being `undefined`, which `JSON.stringify` omits. -/
structure CompletionBody where
  prompt : String
  n_predict : ℚ
  temperature : ℚ
  top_p : ℚ
  top_k : ℚ
  stop : Option (List String)
  seed : Option ℚ
deriving DecidableEq

/-- The serialized `/v1/chat/completions` request body built by `chat`. -/
structure ChatBody where
  messages : List ChatMessage
  max_tokens : ℚ
  temperature : ℚ
  top_p : ℚ
  stop : Option (List String)
  seed : Option ℚ
deriving DecidableEq

/-- The serialized `/infill` request body built by `infill`. -/
structure InfillBody where
  input_prefix : String
  input_suffix : String
  n_predict : ℚ
  temperature : ℚ
  stop : Option (List String)
deriving DecidableEq

/-- The serialized `/models/load` and `/models/unload` request body. -/
structure ModelBody where
  model : String
deriving DecidableEq

/-- The body of an outbound transport request (only the endpoints the
claims exercise are enumerated). -/
inductive RequestPayload where
  | completion (b : CompletionBody) : RequestPayload
  | chatReq (b : ChatBody) : RequestPayload
  | infillReq (b : InfillBody) : RequestPayload
  | modelOnly (b : ModelBody) : RequestPayload
deriving DecidableEq

/-- One outbound transport request: relative path, HTTP method, optional
serialized body. -/
structure ClientRequest where
  path : String
  method : String
  body : Option RequestPayload
deriving DecidableEq

/-- Body construction of `complete` (`src/client.ts` lines 171-183):
`options?.field ?? default` is `(options.bind field).getD default`. -/
def completionBody (prompt : String) (options : Option CompletionOptions) :
    CompletionBody :=
  { prompt := prompt
    n_predict := (Option.bind options CompletionOptions.max_tokens).getD 256
    temperature := (Option.bind options CompletionOptions.temperature).getD 0.7
    top_p := (Option.bind options CompletionOptions.top_p).getD 0.9
    top_k := (Option.bind options CompletionOptions.top_k).getD 40
    stop := Option.bind options CompletionOptions.stop
    seed := Option.bind options CompletionOptions.seed }

/-- Body construction of `chat` (`src/client.ts` lines 185-196). -/
def chatBody (messages : List ChatMessage) (options : Option ChatOptions) :
    ChatBody :=
  { messages := messages
    max_tokens := (Option.bind options ChatOptions.max_tokens).getD 256
    temperature := (Option.bind options ChatOptions.temperature).getD 0.7
    top_p := (Option.bind options ChatOptions.top_p).getD 0.9
    stop := Option.bind options ChatOptions.stop
    seed := Option.bind options ChatOptions.seed }

/-- Body construction of `infill` (`src/client.ts` lines 204-214); the
caller's prefix/suffix go on the wire as `input_prefix`/`input_suffix`. -/
def infillBody (pre suf : String) (options : Option InfillOptions) :
    InfillBody :=
  { input_prefix := pre
    input_suffix := suf
    n_predict := (Option.bind options InfillOptions.max_tokens).getD 256
    temperature := (Option.bind options InfillOptions.temperature).getD 0.7
    stop := Option.bind options InfillOptions.stop }

/-- The transport calls performed by one invocation of `complete`: a
single POST of the completion body to `/completion`. -/
def completeCalls (prompt : String) (options : Option CompletionOptions) :
    List ClientRequest :=
  [{ path := "/completion", method := "POST",
     body := some (RequestPayload.completion (completionBody prompt options)) }]

/-- The transport calls performed by one invocation of `chat`. -/
def chatCalls (messages : List ChatMessage) (options : Option ChatOptions) :
    List ClientRequest :=
  [{ path := "/v1/chat/completions", method := "POST",
     body := some (RequestPayload.chatReq (chatBody messages options)) }]

/-- The transport calls performed by one invocation of `infill`. -/
def infillCalls (pre suf : String) (options : Option InfillOptions) :
    List ClientRequest :=
  [{ path := "/infill", method := "POST",
     body := some (RequestPayload.infillReq (infillBody pre suf options)) }]

/-- The transport calls performed by `loadModel` (`src/client.ts` lines
223-228): a single POST of `{model}` to `/models/load`. -/
def loadModelCalls (model : String) : List ClientRequest :=
  [{ path := "/models/load", method := "POST",
     body := some (RequestPayload.modelOnly { model := model }) }]

/-- The transport calls performed by `unloadModel` (`src/client.ts` lines
230-235). -/
def unloadModelCalls (model : String) : List ClientRequest :=
  [{ path := "/models/unload", method := "POST",
     body := some (RequestPayload.modelOnly { model := model }) }]

/-- Response handling of the JSON-returning methods (e.g. `complete`):
the `fetchJson` result is returned unchanged (`as Promise<T>` is a
compile-time cast). -/
def completeRun (r : HttpResponse) : Except String JsonVal :=
  fetchJson r

/-- Response handling of `health`: the `fetchJson` result unchanged. -/
def healthRun (r : HttpResponse) : Except String JsonVal :=
  fetchJson r

/-- Response handling of `loadModel`: `await fetchJson<void>(...)`
discards the deserialized value; errors propagate unchanged. -/
def loadModelRun (r : HttpResponse) : Except String Unit :=
  Except.map (fun _ => ()) (fetchJson r)

/-- Response handling of `unloadModel`, identical to `loadModel`. -/
def unloadModelRun (r : HttpResponse) : Except String Unit :=
  Except.map (fun _ => ()) (fetchJson r)

/-- `HealthResponse.status` of `src/types.ts`: `'ok' | 'loading_model' |
'error'`. -/
inductive HealthStatus where
  | ok : HealthStatus
  | loading_model : HealthStatus
  | error : HealthStatus
deriving DecidableEq

/-- A `/health` response record (`src/types.ts`). -/
structure HealthResponse where
  status : HealthStatus
  slots_idle : ℚ
  slots_processing : ℚ
deriving DecidableEq

/-- The outcome of one `client.health()` call inside the polling loop:
either a resolved response or a rejected promise (`thrown`). -/
inductive HealthAttempt where
  | resp (h : HealthResponse) : HealthAttempt
  | thrown : HealthAttempt
deriving DecidableEq

/-- Whether an attempt resolved with status `ok` (ends the loop). -/
def attemptStatusOk : HealthAttempt → Bool
  | HealthAttempt.resp h => h.status = HealthStatus.ok
  | HealthAttempt.thrown => false

/-- Whether an attempt is followed by a `setTimeout` pause in
`waitForHealth`: only a `loading_model` response or a thrown error sleeps;
any other non-`ok` status falls through to the next iteration at once. -/
def attemptPauses : HealthAttempt → Bool
  | HealthAttempt.resp h => h.status = HealthStatus.loading_model
  | HealthAttempt.thrown => true

/-- An observable event of the polling loop: one `client.health()`
invocation, or one `setTimeout` pause of `ms` milliseconds. -/
inductive PollEvent where
  | healthCall : PollEvent
  | sleep (ms : Nat) : PollEvent
deriving DecidableEq

/-- The loop body of `waitForHealth` (`src/tools/process.ts` lines 52-74),
iterating attempt index `i` with `r` iterations remaining; the oracle
`health` gives the outcome of the `i`-th `client.health()` call. Returns
the event trace and the boolean result: `ok` returns `true` immediately;
`loading_model` sleeps and continues; a thrown error is caught, sleeps and
continues; any other status (`error`) falls through the `try` with no
sleep; an exhausted loop returns `false`. -/
def waitForHealthFrom (health : Nat → HealthAttempt) (d : Nat) :
    Nat → Nat → List PollEvent × Bool
  | _, 0 => ([], false)
  | i, r + 1 =>
    match health i with
    | HealthAttempt.resp h =>
      match h.status with
      | HealthStatus.ok => ([PollEvent.healthCall], true)
      | HealthStatus.loading_model =>
        let p := waitForHealthFrom health d (i + 1) r
        (PollEvent.healthCall :: PollEvent.sleep d :: p.1, p.2)
      | HealthStatus.error =>
        let p := waitForHealthFrom health d (i + 1) r
        (PollEvent.healthCall :: p.1, p.2)
    | HealthAttempt.thrown =>
      let p := waitForHealthFrom health d (i + 1) r
      (PollEvent.healthCall :: PollEvent.sleep d :: p.1, p.2)

/-- `waitForHealth(client, maxAttempts, delayMs)` with its default
arguments `maxAttempts = 30`, `delayMs = 1000` supplied by callers. -/
def waitForHealth (health : Nat → HealthAttempt) (maxAttempts delayMs : Nat) :
    List PollEvent × Bool :=
  waitForHealthFrom health delayMs 0 maxAttempts

/-- `true` when the trace has two `client.health()` invocations with no
pause between them (adjacent `healthCall` events). -/
def noPauseAdjacent : List PollEvent → Bool
  | PollEvent.healthCall :: PollEvent.healthCall :: _ => true
  | _ :: rest => noPauseAdjacent rest
  | [] => false

/-- `ProcessState` of `src/tools/process.ts`: the `ChildProcess` handle is
modelled by the pid of the process it wraps (`none` = `null`). -/
structure ProcessState where
  process : Option Nat
  pid : Option Nat
deriving DecidableEq

/-- `createProcessState`: both fields `null`. -/
def createProcessState : ProcessState :=
  { process := none, pid := none }

/-- The resolved configuration consumed by the tools (`src/config.ts`). -/
structure Config where
  serverUrl : String
  timeout : Nat
  serverPath : String
deriving DecidableEq

/-- The parsed input of `llama_start` after schema defaults
(`port = 8080`, `ctx_size = 2048`, `n_gpu_layers = -1`) were applied;
`threads` stays optional. -/
structure StartInput where
  model : String
  port : Int
  ctx_size : Int
  n_gpu_layers : Int
  threads : Option Int
deriving DecidableEq

/-- The environment of one `llama_start` invocation: the pid `spawn`
yields (`none` models `serverProcess.pid` being undefined, i.e. a failed
spawn) and the oracle for the health-poll attempts. -/
structure SpawnEnv where
  spawnPid : Option Nat
  health : Nat → HealthAttempt

/-- A side effect performed by a lifecycle tool: spawning the server
binary, or sending a signal to a process. -/
inductive ProcEvent where
  | spawnEv (path : String) (args : List String) : ProcEvent
  | killEv (pid : Nat) (signal : String) : ProcEvent
deriving DecidableEq

/-- The argument list built by `llama_start` (`src/tools/process.ts` lines
109-118); `-t` is appended only when `threads` was supplied. -/
def buildArgs (input : StartInput) : List String :=
  ["-m", input.model,
   "--port", toString input.port,
   "-c", toString input.ctx_size,
   "-ngl", toString input.n_gpu_layers] ++
  (match input.threads with
   | some t => ["-t", toString t]
   | none => [])

/-- The result of a lifecycle tool invocation. An error `ToolResult` is
kept as its message text; the success descriptors (serialized with
`JSON.stringify` in the source) are kept as their structured fields. -/
inductive ToolOutcome where
  | errorResult (text : String) : ToolOutcome
  | started (pid : Nat) (model : String) (port : Int) : ToolOutcome
  | stopped (pid : Nat) : ToolOutcome
deriving DecidableEq

/-- The `llama_start` handler (`src/tools/process.ts` lines 91-193) on an
already-parsed input. Returns the new `ProcessState`, the spawn/kill
events performed, and the outcome. The guard takes the error branch only
when `state.process` and `state.pid` are both non-null; a spawn yielding
no pid leaves the state untouched; a successful spawn records the pid in
both fields, then polls health (30 attempts, 1000 ms): on failure the
child is killed with SIGTERM and the state cleared, on success the
descriptor `{status:'started', pid, model, port}` is returned. The
rollback `kill` is modelled as non-throwing. -/
def startHandler (config : Config) (st : ProcessState) (env : SpawnEnv)
    (input : StartInput) : ProcessState × List ProcEvent × ToolOutcome :=
  match st.process, st.pid with
  | some _, some pid =>
    (st, [],
     ToolOutcome.errorResult
       ("Error: llama-server is already running with PID " ++ toString pid ++
        ". Use llama_stop first."))
  | _, _ =>
    match env.spawnPid with
    | none =>
      (st, [ProcEvent.spawnEv config.serverPath (buildArgs input)],
       ToolOutcome.errorResult
         ("Error: Failed to start llama-server at " ++ config.serverPath ++
          ". Check that the binary exists and is executable."))
    | some newPid =>
      if (waitForHealth env.health 30 1000).2 then
        ({ process := some newPid, pid := some newPid },
         [ProcEvent.spawnEv config.serverPath (buildArgs input)],
         ToolOutcome.started newPid input.model input.port)
      else
        ({ process := none, pid := none },
         [ProcEvent.spawnEv config.serverPath (buildArgs input),
          ProcEvent.killEv newPid "SIGTERM"],
         ToolOutcome.errorResult
           "Error: llama-server started but did not become healthy within 30 seconds. Check model path and server logs.")

/-- The `llama_stop` handler (`src/tools/process.ts` lines 212-257).
`killResult` is the outcome of `state.process.kill('SIGTERM')`: when it
throws, the surrounding catch returns `Error: ${message}` and the state
fields have not been cleared; when it succeeds, the state is cleared and
the pid captured before clearing is returned. When either field is null,
the "not running" error is returned and nothing is signalled. -/
def stopHandler (st : ProcessState) (killResult : Except String Unit) :
    ProcessState × List ProcEvent × ToolOutcome :=
  match st.process, st.pid with
  | some handle, some pid =>
    match killResult with
    | Except.error msg =>
      (st, [], ToolOutcome.errorResult ("Error: " ++ msg))
    | Except.ok _ =>
      ({ process := none, pid := none },
       [ProcEvent.killEv handle "SIGTERM"],
       ToolOutcome.stopped pid)
  | _, _ =>
    (st, [],
     ToolOutcome.errorResult "Error: llama-server is not running. Nothing to stop.")

/-- The `exit` handler registered by `llama_start` (`src/tools/process.ts`
lines 144-147): it clears both state fields unconditionally, with no check
that the state still refers to the process that exited. -/
def exitHandler (_st : ProcessState) : ProcessState :=
  { process := none, pid := none }

/-- The Process State invariant of the specification: handle and pid are
both present or both absent. -/
def stateInv (st : ProcessState) : Prop :=
  st.process.isSome = st.pid.isSome

/-- Reduction of `noPauseAdjacent` past a leading sleep event. -/
theorem noPauseAdjacent_sleep_cons (ms : Nat) (l : List PollEvent) :
    noPauseAdjacent (PollEvent.sleep ms :: l) = noPauseAdjacent l :=
  rfl

/-- Reduction of `noPauseAdjacent` for a health call followed by a sleep. -/
theorem noPauseAdjacent_call_sleep (ms : Nat) (l : List PollEvent) :
    noPauseAdjacent (PollEvent.healthCall :: PollEvent.sleep ms :: l) =
      noPauseAdjacent l :=
  rfl

/-- Characterization of the polling loop `waitForHealthFrom`: the trace
has at most `r` health calls; fewer than `r` calls means the loop returned
`true` early; a `true` result points to an attempt that resolved `ok`;
when every non-`ok` attempt in range pauses, no two health calls are
adjacent; and every event is a health call or a `sleep d`. -/
theorem waitFrom_spec (health : Nat → HealthAttempt) (d : Nat) :
    ∀ r i,
      (waitForHealthFrom health d i r).1.count PollEvent.healthCall ≤ r ∧
      ((waitForHealthFrom health d i r).1.count PollEvent.healthCall < r →
        (waitForHealthFrom health d i r).2 = true) ∧
      ((waitForHealthFrom health d i r).2 = true →
        ∃ j, i ≤ j ∧ j < i + r ∧ attemptStatusOk (health j) = true) ∧
      ((∀ j, i ≤ j → j < i + r → attemptStatusOk (health j) = false →
          attemptPauses (health j) = true) →
        noPauseAdjacent (waitForHealthFrom health d i r).1 = false) ∧
      (∀ e ∈ (waitForHealthFrom health d i r).1,
        e = PollEvent.healthCall ∨ e = PollEvent.sleep d) := by
  intro r
  induction r with
  | zero =>
    intro i
    refine ⟨?_, ?_, ?_, ?_, ?_⟩ <;> simp [waitForHealthFrom, noPauseAdjacent]
  | succ r ih =>
    intro i
    obtain ⟨ih1, ih2, ih3, ih4, ih5⟩ := ih (i + 1)
    cases hh : health i with
    | thrown =>
      simp only [waitForHealthFrom, hh]
      refine ⟨?_, ?_, ?_, ?_, ?_⟩
      · simpa [List.count_cons] using ih1
      · intro hlt
        apply ih2
        simpa [List.count_cons] using hlt
      · intro hb
        obtain ⟨j, hj1, hj2, hj3⟩ := ih3 hb
        exact ⟨j, by omega, by omega, hj3⟩
      · intro hp
        rw [noPauseAdjacent_call_sleep]
        exact ih4 (fun j h1 h2 h3 => hp j (by omega) (by omega) h3)
      · intro e he
        simp only [List.mem_cons] at he
        rcases he with he | he | he
        · exact Or.inl he
        · exact Or.inr he
        · exact ih5 e he
    | resp h =>
      cases hs : h.status with
      | ok =>
        simp only [waitForHealthFrom, hh, hs]
        refine ⟨by simp, by simp, ?_, ?_, by simp⟩
        · intro _
          exact ⟨i, le_refl i, by omega, by simp [attemptStatusOk, hh, hs]⟩
        · intro _
          rfl
      | loading_model =>
        simp only [waitForHealthFrom, hh, hs]
        refine ⟨?_, ?_, ?_, ?_, ?_⟩
        · simpa [List.count_cons] using ih1
        · intro hlt
          apply ih2
          simpa [List.count_cons] using hlt
        · intro hb
          obtain ⟨j, hj1, hj2, hj3⟩ := ih3 hb
          exact ⟨j, by omega, by omega, hj3⟩
        · intro hp
          rw [noPauseAdjacent_call_sleep]
          exact ih4 (fun j h1 h2 h3 => hp j (by omega) (by omega) h3)
        · intro e he
          simp only [List.mem_cons] at he
          rcases he with he | he | he
          · exact Or.inl he
          · exact Or.inr he
          · exact ih5 e he
      | error =>
        simp only [waitForHealthFrom, hh, hs]
        refine ⟨?_, ?_, ?_, ?_, ?_⟩
        · simpa [List.count_cons] using ih1
        · intro hlt
          apply ih2
          simpa [List.count_cons] using hlt
        · intro hb
          obtain ⟨j, hj1, hj2, hj3⟩ := ih3 hb
          exact ⟨j, by omega, by omega, hj3⟩
        · intro hp
          exfalso
          have := hp i (le_refl i) (by omega)
            (by simp [attemptStatusOk, hh, hs]) 
          simp [attemptPauses, hh, hs] at this
        · intro e he
          simp only [List.mem_cons] at he
          rcases he with he | he
          · exact Or.inl he
          · exact ih5 e he

/-- C1: for every public operation of the Process Lifecycle Manager
(start, stop, and the child-exit notification), the Process State
invariant `handle ≠ null ⇔ pid ≠ null` holds before and after the
operation, on both success and error paths. -/
theorem c1_state_invariant (config : Config) (st : ProcessState)
    (env : SpawnEnv) (input : StartInput) (killResult : Except String Unit)
    (hinv : stateInv st) :
    stateInv (startHandler config st env input).1 ∧
    stateInv (stopHandler st killResult).1 ∧
    stateInv (exitHandler st) := by
  rcases st with ⟨proc, pid⟩
  refine ⟨?_, ?_, ?_⟩
  · cases proc with
    | none =>
      cases pid with
      | none =>
        cases hsp : env.spawnPid with
        | none => simp [startHandler, hsp, stateInv]
        | some p =>
          simp only [startHandler, hsp]
          split <;> simp [stateInv]
      | some q => simp [stateInv] at hinv
    | some hdl =>
      cases pid with
      | none => simp [stateInv] at hinv
      | some q => simp [startHandler, stateInv]
  · cases proc with
    | none => simpa [stopHandler, stateInv] using hinv
    | some hdl =>
      cases pid with
      | none => simp [stateInv] at hinv
      | some q =>
        cases killResult with
        | error msg => simp [stopHandler, stateInv]
        | ok u => simp [stopHandler, stateInv]
  · simp [exitHandler, stateInv]

/-- C1 witness: the invariant theorem applied at the empty state with a
concrete environment. -/
theorem c1_state_invariant_witness :
    stateInv (startHandler
      { serverUrl := "http://localhost:8080", timeout := 30000,
        serverPath := "llama-server" }
      createProcessState
      { spawnPid := some 100,
        health := fun _ => HealthAttempt.resp
          { status := HealthStatus.ok, slots_idle := 4, slots_processing := 0 } }
      { model := "/m.gguf", port := 8080, ctx_size := 2048,
        n_gpu_layers := -1, threads := none }).1 ∧
    stateInv (stopHandler createProcessState (Except.ok ())).1 ∧
    stateInv (exitHandler createProcessState) :=
  c1_state_invariant _ createProcessState _ _ (Except.ok ()) rfl

/-- C4: invoking start while Process State is Running (handle and pid both
present) fails with an error mentioning "already running" and the current
pid, performs no spawn (no events at all), and leaves the state
unchanged. -/
theorem c4_already_running (config : Config) (st : ProcessState)
    (env : SpawnEnv) (input : StartInput) (hdl pid : Nat)
    (hp : st.process = some hdl) (hid : st.pid = some pid) :
    startHandler config st env input =
      (st, [],
       ToolOutcome.errorResult
         ("Error: llama-server is already running with PID " ++ toString pid ++
          ". Use llama_stop first.")) ∧
    strContains
      ("Error: llama-server is already running with PID " ++ toString pid ++
       ". Use llama_stop first.") "already running" ∧
    strContains
      ("Error: llama-server is already running with PID " ++ toString pid ++
       ". Use llama_stop first.") (toString pid) := by
  rcases st with ⟨proc, qid⟩
  simp only at hp hid
  subst hp
  subst hid
  refine ⟨rfl, ?_, ?_⟩
  · have h1 : ("already running").data <:+:
        ("Error: llama-server is already running with PID ").data := by
      refine ⟨("Error: llama-server is ").data, (" with PID ").data, ?_⟩
      decide
    have h2 : ("Error: llama-server is already running with PID ").data <+:
        ("Error: llama-server is already running with PID " ++ toString pid ++
         ". Use llama_stop first.").data := by
      refine ⟨(toString pid).data ++ (". Use llama_stop first.").data, ?_⟩
      simp [String.data_append, List.append_assoc]
    exact h1.trans h2.isInfix
  · refine ⟨("Error: llama-server is already running with PID ").data,
      (". Use llama_stop first.").data, ?_⟩
    simp [String.data_append, List.append_assoc]

/-- C4 witness: start on a state recording pid 12345 returns the
"already running" error unchanged-state triple. -/
theorem c4_already_running_witness :
    (startHandler
      { serverUrl := "http://localhost:8080", timeout := 30000,
        serverPath := "llama-server" }
      { process := some 12345, pid := some 12345 }
      { spawnPid := some 100, health := fun _ => HealthAttempt.thrown }
      { model := "/m.gguf", port := 8080, ctx_size := 2048,
        n_gpu_layers := -1, threads := none } =
      ({ process := some 12345, pid := some 12345 }, [],
       ToolOutcome.errorResult
         ("Error: llama-server is already running with PID " ++ toString 12345 ++
          ". Use llama_stop first."))) ∧
    strContains
      ("Error: llama-server is already running with PID " ++ toString 12345 ++
       ". Use llama_stop first.") "already running" ∧
    strContains
      ("Error: llama-server is already running with PID " ++ toString 12345 ++
       ". Use llama_stop first.") (toString 12345) :=
  c4_already_running _ _ _ _ 12345 12345 rfl rfl

/-- C7: stop while Running: if the termination signal throws, the failure
is surfaced and the state is left unmodified (both fields still present);
on a successful signal the state is cleared and the returned pid is the
one captured before clearing. -/
theorem c7_stop_paths (st : ProcessState) (hdl pid : Nat) (msg : String)
    (hp : st.process = some hdl) (hid : st.pid = some pid) :
    stopHandler st (Except.error msg) =
      (st, [], ToolOutcome.errorResult ("Error: " ++ msg)) ∧
    stopHandler st (Except.ok ()) =
      ({ process := none, pid := none },
       [ProcEvent.killEv hdl "SIGTERM"],
       ToolOutcome.stopped pid) := by
  rcases st with ⟨proc, qid⟩
  simp only at hp hid
  subst hp
  subst hid
  exact ⟨rfl, rfl⟩

/-- C7 witness: both stop paths at the state recording pid 4242. -/
theorem c7_stop_paths_witness :
    (stopHandler { process := some 4242, pid := some 4242 }
        (Except.error "kill ESRCH") =
      ({ process := some 4242, pid := some 4242 }, [],
       ToolOutcome.errorResult ("Error: " ++ "kill ESRCH"))) ∧
    stopHandler { process := some 4242, pid := some 4242 } (Except.ok ()) =
      ({ process := none, pid := none },
       [ProcEvent.killEv 4242 "SIGTERM"],
       ToolOutcome.stopped 4242) :=
  c7_stop_paths _ 4242 4242 "kill ESRCH" rfl rfl

/-- Configuration used by the start/stop/start scenario. -/
def demoConfig : Config :=
  { serverUrl := "http://localhost:8080", timeout := 30000,
    serverPath := "llama-server" }

/-- Start input used by the start/stop/start scenario. -/
def demoInput (m : String) : StartInput :=
  { model := m, port := 8080, ctx_size := 2048, n_gpu_layers := -1,
    threads := none }

/-- A health oracle whose first attempt already reports `ok`. -/
def healthOkOracle : Nat → HealthAttempt := fun _ =>
  HealthAttempt.resp
    { status := HealthStatus.ok, slots_idle := 4, slots_processing := 0 }

/-- State after starting process A (pid 100) from the empty state. -/
def stateAfterStartA : ProcessState :=
  (startHandler demoConfig createProcessState
    { spawnPid := some 100, health := healthOkOracle } (demoInput "/a.gguf")).1

/-- State after stopping process A. -/
def stateAfterStopA : ProcessState :=
  (stopHandler stateAfterStartA (Except.ok ())).1

/-- State after starting process B (pid 200). -/
def stateAfterStartB : ProcessState :=
  (startHandler demoConfig stateAfterStopA
    { spawnPid := some 200, health := healthOkOracle } (demoInput "/b.gguf")).1

/-- C10: the exit handler registered by start clears Process State
unconditionally, without checking that the state still refers to the
exiting process; so in the reachable sequence start A (pid 100), stop A,
start B (pid 200), a late-delivered exit event from process A transitions
the state to Stopped even though B's handle and pid were recorded there. -/
theorem c10_late_exit_clears_b :
    (∀ st : ProcessState, exitHandler st = { process := none, pid := none }) ∧
    stateAfterStartB = { process := some 200, pid := some 200 } ∧
    exitHandler stateAfterStartB = { process := none, pid := none } := by
  refine ⟨fun st => rfl, by decide, rfl⟩

/-- Health oracle whose every attempt resolves with status `error`
(allowed by the `HealthResponse` type). -/
def errStatusHealth : Nat → HealthAttempt := fun _ =>
  HealthAttempt.resp
    { status := HealthStatus.error, slots_idle := 0, slots_processing := 0 }

/-- C2 counterexample: when every attempt resolves with status `error`,
the polling loop performs its 30 health invocations back-to-back — the
trace is 30 adjacent `healthCall` events with not a single pause between
them — refuting "between any two consecutive health invocations a
1-second pause occurs" for not-ready statuses other than
`loading_model`. -/
theorem c2_counterexample :
    (waitForHealth errStatusHealth 30 1000).1 =
      List.replicate 30 PollEvent.healthCall ∧
    (waitForHealth errStatusHealth 30 1000).2 = false ∧
    noPauseAdjacent (List.replicate 30 PollEvent.healthCall) = true ∧
    (List.replicate 30 PollEvent.healthCall).count PollEvent.healthCall = 30 := by
  decide

/-- C2 amended: the health method is invoked at most 30 times, the loop
ends early only when an attempt resolves `ok`, every pause is the 1000 ms
delay, and — provided each non-`ok` attempt either resolved
`loading_model` or threw — a pause separates every two consecutive health
invocations (an attempt resolving any other status, e.g. `error`,
proceeds to the next invocation without a pause). -/
theorem c2_poll_amended (health : Nat → HealthAttempt)
    (hp : ∀ j, j < 30 → attemptStatusOk (health j) = false →
      attemptPauses (health j) = true) :
    (waitForHealth health 30 1000).1.count PollEvent.healthCall ≤ 30 ∧
    ((waitForHealth health 30 1000).1.count PollEvent.healthCall < 30 →
      (waitForHealth health 30 1000).2 = true) ∧
    ((waitForHealth health 30 1000).2 = true →
      ∃ j, j < 30 ∧ attemptStatusOk (health j) = true) ∧
    noPauseAdjacent (waitForHealth health 30 1000).1 = false ∧
    (∀ e ∈ (waitForHealth health 30 1000).1,
      e = PollEvent.healthCall ∨ e = PollEvent.sleep 1000) := by
  obtain ⟨h1, h2, h3, h4, h5⟩ := waitFrom_spec health 1000 30 0
  refine ⟨h1, h2, ?_, ?_, h5⟩
  · intro hb
    obtain ⟨j, _, hj2, hj3⟩ := h3 hb
    exact ⟨j, by omega, hj3⟩
  · exact h4 (fun j _ hj2 hok => hp j (by omega) hok)

/-- Health oracle whose every attempt throws (connection refused). -/
def thrownHealth : Nat → HealthAttempt := fun _ => HealthAttempt.thrown

/-- C2 witness: the amended polling property at the always-throwing
oracle. -/
theorem c2_poll_amended_witness :
    (waitForHealth thrownHealth 30 1000).1.count PollEvent.healthCall ≤ 30 ∧
    ((waitForHealth thrownHealth 30 1000).1.count PollEvent.healthCall < 30 →
      (waitForHealth thrownHealth 30 1000).2 = true) ∧
    ((waitForHealth thrownHealth 30 1000).2 = true →
      ∃ j, j < 30 ∧ attemptStatusOk (thrownHealth j) = true) ∧
    noPauseAdjacent (waitForHealth thrownHealth 30 1000).1 = false ∧
    (∀ e ∈ (waitForHealth thrownHealth 30 1000).1,
      e = PollEvent.healthCall ∨ e = PollEvent.sleep 1000) :=
  c2_poll_amended thrownHealth (by decide)

/-- C3: when start spawns a child (guard passed, spawn yielded a pid) and
no health attempt in the 30-attempt budget resolves `ok`, the handler
sends SIGTERM to that child, clears Process State back to Stopped, and
fails with the "did not become healthy" error. -/
theorem c3_unhealthy_rollback (config : Config) (st : ProcessState)
    (env : SpawnEnv) (input : StartInput) (p : Nat)
    (hguard : st.process = none ∨ st.pid = none)
    (hspawn : env.spawnPid = some p)
    (hnok : ∀ j, j < 30 → attemptStatusOk (env.health j) = false) :
    startHandler config st env input =
      ({ process := none, pid := none },
       [ProcEvent.spawnEv config.serverPath (buildArgs input),
        ProcEvent.killEv p "SIGTERM"],
       ToolOutcome.errorResult
         "Error: llama-server started but did not become healthy within 30 seconds. Check model path and server logs.") ∧
    strContains
      "Error: llama-server started but did not become healthy within 30 seconds. Check model path and server logs."
      "did not become healthy" := by
  have hfalse : (waitForHealth env.health 30 1000).2 = false := by
    cases hb : (waitForHealth env.health 30 1000).2 with
    | false => rfl
    | true =>
      obtain ⟨j, _, hj2, hj3⟩ := (waitFrom_spec env.health 1000 30 0).2.2.1 hb
      have := hnok j (by omega)
      rw [this] at hj3
      exact absurd hj3 (by simp)
  constructor
  · rcases st with ⟨proc, pid⟩
    rcases hguard with hg | hg
    · simp only at hg
      subst hg
      cases pid <;> simp [startHandler, hspawn, hfalse]
    · simp only at hg
      subst hg
      cases proc <;> simp [startHandler, hspawn, hfalse]
  · refine ⟨("Error: llama-server started but ").data,
      (" within 30 seconds. Check model path and server logs.").data, ?_⟩
    decide

/-- The start input used by the C3 witness. -/
def c3Input : StartInput :=
  { model := "/m.gguf", port := 8080, ctx_size := 2048,
    n_gpu_layers := -1, threads := none }

/-- C3 witness: rollback at the empty state with spawn pid 100 and an
always-throwing health oracle. -/
theorem c3_unhealthy_rollback_witness :
    (startHandler
      { serverUrl := "http://localhost:8080", timeout := 30000,
        serverPath := "llama-server" }
      createProcessState
      { spawnPid := some 100, health := fun _ => HealthAttempt.thrown }
      c3Input =
      ({ process := none, pid := none },
       [ProcEvent.spawnEv "llama-server" (buildArgs c3Input),
        ProcEvent.killEv 100 "SIGTERM"],
       ToolOutcome.errorResult
         "Error: llama-server started but did not become healthy within 30 seconds. Check model path and server logs.")) ∧
    strContains
      "Error: llama-server started but did not become healthy within 30 seconds. Check model path and server logs."
      "did not become healthy" :=
  c3_unhealthy_rollback _ createProcessState _ _ 100 (Or.inl rfl) rfl
    (by decide)

/-- C5: `complete(prompt)` with no overrides performs exactly one
transport call, a POST to `/completion` whose body is exactly
`{prompt, n_predict: 256, temperature: 0.7, top_p: 0.9, top_k: 40}` with
`stop` and `seed` absent, the caller's `max_tokens` name translated to the
wire name `n_predict`. -/
theorem c5_complete_defaults (prompt : String) :
    completeCalls prompt none =
      [{ path := "/completion", method := "POST",
         body := some (RequestPayload.completion
           { prompt := prompt, n_predict := 256, temperature := 0.7,
             top_p := 0.9, top_k := 40, stop := none, seed := none }) }] :=
  rfl

/-- C6: a caller-supplied temperature is placed in the request body
unmodified by `complete`, `chat`, and `infill`; the 0.7 default applies
only when the field is absent. -/
theorem c6_temperature_passthrough (p pre suf : String)
    (ms : List ChatMessage) (co : CompletionOptions) (cho : ChatOptions)
    (io : InfillOptions) (t : ℚ)
    (h1 : co.temperature = some t) (h2 : cho.temperature = some t)
    (h3 : io.temperature = some t) :
    (completionBody p (some co)).temperature = t ∧
    (chatBody ms (some cho)).temperature = t ∧
    (infillBody pre suf (some io)).temperature = t := by
  simp [completionBody, chatBody, infillBody, h1, h2, h3]

/-- C6 witness: the pass-through theorem at both documented extremes,
temperature 0 and temperature 2. -/
theorem c6_temperature_passthrough_witness :
    ((completionBody "p" (some ⟨none, some 0, none, none, none, none⟩)).temperature = 0 ∧
     (chatBody [] (some ⟨none, some 0, none, none, none⟩)).temperature = 0 ∧
     (infillBody "a" "b" (some ⟨none, some 0, none⟩)).temperature = 0) ∧
    ((completionBody "p" (some ⟨none, some 2, none, none, none, none⟩)).temperature = 2 ∧
     (chatBody [] (some ⟨none, some 2, none, none, none⟩)).temperature = 2 ∧
     (infillBody "a" "b" (some ⟨none, some 2, none⟩)).temperature = 2) :=
  ⟨c6_temperature_passthrough "p" "a" "b" [] _ _ _ 0 rfl rfl rfl,
   c6_temperature_passthrough "p" "a" "b" [] _ _ _ 2 rfl rfl rfl⟩

/-- C8: a response with status outside the 2xx range makes the transport
primitives fail with `HTTP ${status}: ${statusText}` — a message that
contains the numeric status and the status text — and the client methods
(JSON-returning ones like complete/health, and loadModel/unloadModel)
propagate this failure unchanged. -/
theorem c8_non2xx_http_error (r : HttpResponse) (hok : respOk r = false) :
    fetchJson r =
      Except.error ("HTTP " ++ toString r.status ++ ": " ++ r.statusText) ∧
    fetchText r =
      Except.error ("HTTP " ++ toString r.status ++ ": " ++ r.statusText) ∧
    completeRun r =
      Except.error ("HTTP " ++ toString r.status ++ ": " ++ r.statusText) ∧
    healthRun r =
      Except.error ("HTTP " ++ toString r.status ++ ": " ++ r.statusText) ∧
    loadModelRun r =
      Except.error ("HTTP " ++ toString r.status ++ ": " ++ r.statusText) ∧
    unloadModelRun r =
      Except.error ("HTTP " ++ toString r.status ++ ": " ++ r.statusText) ∧
    strContains ("HTTP " ++ toString r.status ++ ": " ++ r.statusText)
      (toString r.status) ∧
    strContains ("HTTP " ++ toString r.status ++ ": " ++ r.statusText)
      r.statusText := by
  refine ⟨?_, ?_, ?_, ?_, ?_, ?_, ?_, ?_⟩
  · simp [fetchJson, hok]
  · simp [fetchText, hok]
  · simp [completeRun, fetchJson, hok]
  · simp [healthRun, fetchJson, hok]
  · simp [loadModelRun, fetchJson, hok, Except.map]
  · simp [unloadModelRun, fetchJson, hok, Except.map]
  · refine ⟨("HTTP ").data, (": " ++ r.statusText).data, ?_⟩
    simp [String.data_append, List.append_assoc]
  · refine ⟨("HTTP " ++ toString r.status ++ ": ").data, [], ?_⟩
    simp [String.data_append, List.append_assoc]

/-- C8 witness: the HTTP-error theorem at a concrete 500 response. -/
theorem c8_non2xx_http_error_witness :
    fetchJson
        { status := 500, statusText := "Internal Server Error",
          jsonBody := none, textBody := "" } =
      Except.error ("HTTP " ++ toString 500 ++ ": " ++ "Internal Server Error") ∧
    fetchText
        { status := 500, statusText := "Internal Server Error",
          jsonBody := none, textBody := "" } =
      Except.error ("HTTP " ++ toString 500 ++ ": " ++ "Internal Server Error") ∧
    completeRun
        { status := 500, statusText := "Internal Server Error",
          jsonBody := none, textBody := "" } =
      Except.error ("HTTP " ++ toString 500 ++ ": " ++ "Internal Server Error") ∧
    healthRun
        { status := 500, statusText := "Internal Server Error",
          jsonBody := none, textBody := "" } =
      Except.error ("HTTP " ++ toString 500 ++ ": " ++ "Internal Server Error") ∧
    loadModelRun
        { status := 500, statusText := "Internal Server Error",
          jsonBody := none, textBody := "" } =
      Except.error ("HTTP " ++ toString 500 ++ ": " ++ "Internal Server Error") ∧
    unloadModelRun
        { status := 500, statusText := "Internal Server Error",
          jsonBody := none, textBody := "" } =
      Except.error ("HTTP " ++ toString 500 ++ ": " ++ "Internal Server Error") ∧
    strContains ("HTTP " ++ toString 500 ++ ": " ++ "Internal Server Error")
      (toString 500) ∧
    strContains ("HTTP " ++ toString 500 ++ ": " ++ "Internal Server Error")
      "Internal Server Error" :=
  c8_non2xx_http_error
    { status := 500, statusText := "Internal Server Error",
      jsonBody := none, textBody := "" } rfl

/-- A 2xx response whose body is empty: `response.json()` rejects. -/
def emptyBodyResp : HttpResponse :=
  { status := 200, statusText := "OK", jsonBody := none, textBody := "" }

/-- C9 counterexample: on a 2xx response with no body — exactly the shape
the spec's wire table documents for `/models/load` — `loadModel` does not
resolve successfully: `fetchJson` runs `response.json()`, whose rejection
on an empty body propagates as an error. -/
theorem c9_counterexample :
    respOk emptyBodyResp = true ∧
    loadModelRun emptyBodyResp =
      Except.error "SyntaxError: Unexpected end of JSON input" ∧
    unloadModelRun emptyBodyResp =
      Except.error "SyntaxError: Unexpected end of JSON input" :=
  ⟨rfl, rfl, rfl⟩

/-- C9 amended: `loadModel` (and symmetrically `unloadModel`) posts
`{model}` to its endpoint in a single transport call, and resolves
successfully with no return value whenever the response has a 2xx status
and a body that deserializes as JSON (the deserialized value is
discarded); a 2xx response with an empty body instead fails with the
JSON deserialization error. -/
theorem c9_load_unload_amended (model : String) (r : HttpResponse)
    (v : JsonVal) (hok : respOk r = true) (hbody : r.jsonBody = some v) :
    loadModelCalls model =
      [{ path := "/models/load", method := "POST",
         body := some (RequestPayload.modelOnly { model := model }) }] ∧
    loadModelRun r = Except.ok () ∧
    unloadModelCalls model =
      [{ path := "/models/unload", method := "POST",
         body := some (RequestPayload.modelOnly { model := model }) }] ∧
    unloadModelRun r = Except.ok () := by
  refine ⟨rfl, ?_, rfl, ?_⟩ <;>
    simp [loadModelRun, unloadModelRun, fetchJson, hok, hbody, Except.map]

/-- C9 witness: the amended theorem at a 200 response with JSON body
`null`. -/
theorem c9_load_unload_amended_witness :
    loadModelCalls "/models/test.gguf" =
      [{ path := "/models/load", method := "POST",
         body := some (RequestPayload.modelOnly { model := "/models/test.gguf" }) }] ∧
    loadModelRun
      { status := 200, statusText := "OK", jsonBody := some JsonVal.null,
        textBody := "" } = Except.ok () ∧
    unloadModelCalls "/models/test.gguf" =
      [{ path := "/models/unload", method := "POST",
         body := some (RequestPayload.modelOnly { model := "/models/test.gguf" }) }] ∧
    unloadModelRun
      { status := 200, statusText := "OK", jsonBody := some JsonVal.null,
        textBody := "" } = Except.ok () :=
  c9_load_unload_amended "/models/test.gguf"
    { status := 200, statusText := "OK", jsonBody := some JsonVal.null,
      textBody := "" } JsonVal.null rfl rfl
